import Mathlib

/-!
Verification development for the micro:bit simulator's networked device
fabric: the addresses linker, the synchronisation server's order handling,
the frame codec, the websocket client radio, the legacy mesh radio, and the
broker broadcast. Each definition is a shallow embedding of the
corresponding Python source; theorems settle the specified properties.
-/

/-- Python exception kinds raised by the embedded code paths. -/
inductive PyError where
  | typeError
  | valueError
  | keyError
  deriving DecidableEq, Repr

/-- Network address, as in AddressesLinker.py: a pair (host, port). -/
abbrev Address : Type := String × Nat

/-- The addresses linker's underlying dict, as an insertion-ordered
association list from address to tag string (Python dict semantics). -/
abbrev Linker : Type := List (Address × String)

namespace AddressesLinker

/-- Dict lookup: value stored for an address, if any. -/
def lookup (l : Linker) (a : Address) : Option String :=
  match l with
  | [] => none
  | (k, v) :: rest => if k = a then some v else lookup rest a

/-- AddressesLinker.linkAddress: dict assignment. An existing key is
overwritten in place, a new key is appended (Python dict insertion order). -/
def linkAddress (l : Linker) (a : Address) (value : String) : Linker :=
  match l with
  | [] => [(a, value)]
  | (k, v) :: rest =>
      if k = a then (k, value) :: rest else (k, v) :: linkAddress rest a value

/-- Removal of a key from the dict (the successful branch of dict.pop). -/
def eraseKey (l : Linker) (a : Address) : Linker :=
  match l with
  | [] => []
  | (k, v) :: rest => if k = a then rest else (k, v) :: eraseKey rest a

/-- AddressesLinker.unlinkAddress: the code calls dict.pop(address) with no
default, so a missing address raises KeyError. -/
def unlinkAddress (l : Linker) (a : Address) : Except PyError Linker :=
  match lookup l a with
  | some _ => .ok (eraseKey l a)
  | none => .error .keyError

end AddressesLinker

/-- An order sent by a synchronisation client, as built by Order.py:
exactly one of link, unlink or get. -/
inductive OrderT where
  | link (value : String) (port : Nat)
  | unlink (port : Nat)
  | get (value : String)
  deriving DecidableEq, Repr

/-- Per-data-connection state inside SynchronisationServer.__modifyLinker:
the local variable link (the entry this connection owns, if any) and the
server's addresses linker. -/
structure ConnState where
  link : Option Address
  linker : Linker
  deriving DecidableEq, Repr

/-- One iteration of the order-execution block of
SynchronisationServer.__modifyLinker, for a connection whose remote host is
host. A KeyError escaping from unlinkAddress is caught by the surrounding
except block, which skips the rest of the order's statements. -/
def processOrder (host : String) (st : ConnState) (o : OrderT) : ConnState :=
  match o with
  | .link value port =>
      match st.link with
      | some owned =>
          match AddressesLinker.unlinkAddress st.linker owned with
          | .ok l2 =>
              { link := some owned,
                linker := AddressesLinker.linkAddress l2 owned value }
          | .error _ => st
      | none =>
          let owned : Address := (host, port)
          { link := some owned,
            linker := AddressesLinker.linkAddress st.linker owned value }
  | .unlink port =>
      match st.link with
      | some owned =>
          if owned = (host, port) then
            match AddressesLinker.unlinkAddress st.linker owned with
            | .ok l2 => { link := none, linker := l2 }
            | .error _ => st
          else st
      | none => st
  | .get _ => st

/-- A data connection's sequence of orders, processed in arrival order. -/
def processOrders (host : String) (st : ConnState) (os : List OrderT) : ConnState :=
  os.foldl (processOrder host) st

/-- Big-endian 4-byte encoding of a length, as struct.pack built it
in Connection.send. -/
def be4 (n : Nat) : List Nat :=
  [n / 2 ^ 24 % 256, n / 2 ^ 16 % 256, n / 2 ^ 8 % 256, n % 256]

namespace Connection

/-- Connection.send: emit the 4-byte big-endian length followed by the
payload bytes. -/
def send (payload : List Nat) : List Nat :=
  be4 payload.length ++ payload

/-- Connection.recv: read 4 bytes, unpack the big-endian length, then read
exactly that many payload bytes. A stream too short to satisfy the reads
corresponds to a blocked (unfinished) recv and yields none. -/
def recv (stream : List Nat) : Option (List Nat) :=
  match stream with
  | b0 :: b1 :: b2 :: b3 :: rest =>
      let n := b0 * 2 ^ 24 + b1 * 2 ^ 16 + b2 * 2 ^ 8 + b3
      if rest.length < n then none else some (rest.take n)
  | _ => none

end Connection

/-! Constants from microbit_protocol/commands/radio.py and
microbit_client/radio.py. -/

def MIN_LENGTH : Int := 0
def MAX_LENGTH : Int := 254
def MIN_CHANNEL : Int := 0
def MAX_CHANNEL : Int := 83
def MIN_GROUP : Int := 0
def MAX_GROUP : Int := 255
def MIN_POWER : Int := 0
def MAX_POWER : Int := 7
def MIN_QUEUE : Int := 0
def RATE_250KBIT : Int := 250
def RATE_1MBIT : Int := 1000
def RATE_2MBIT : Int := 2000
def INVERT_POWER_TO_RSSI : Int := 8

/-- The 3-byte string envelope (MESSAGE_PREFIX in the source):
bytes 0x01 0x00 0x01. -/
def MESSAGE_HEADER : List Nat := [1, 0, 1]

/-- UTF-8 encoding of a string as a byte list, the model of Python's
bytes(message, "utf8"). -/
def utf8Encode (s : String) : List Nat :=
  (s.data.map (fun c => (String.utf8EncodeChar c).map UInt8.toNat)).flatten

/-- UTF-8 decoding of a byte list into characters, the model of Python's
strict str(message, "utf8"): continuation, overlong and surrogate checks
reject invalid byte sequences. -/
def utf8DecodeAux : List Nat → Option (List Char)
  | [] => some []
  | b :: rest =>
    if b < 0x80 then
      match utf8DecodeAux rest with
      | some cs => some (Char.ofNat b :: cs)
      | none => none
    else if b < 0xC2 then none
    else if b < 0xE0 then
      match rest with
      | b1 :: rest1 =>
          if 0x80 ≤ b1 ∧ b1 < 0xC0 then
            match utf8DecodeAux rest1 with
            | some cs => some (Char.ofNat ((b - 0xC0) * 64 + (b1 - 0x80)) :: cs)
            | none => none
          else none
      | [] => none
    else if b < 0xF0 then
      match rest with
      | b1 :: b2 :: rest2 =>
          if (0x80 ≤ b1 ∧ b1 < 0xC0) ∧ (0x80 ≤ b2 ∧ b2 < 0xC0) ∧
             (b = 0xE0 → 0xA0 ≤ b1) ∧ (b = 0xED → b1 < 0xA0) then
            match utf8DecodeAux rest2 with
            | some cs =>
                some (Char.ofNat ((b - 0xE0) * 4096 + (b1 - 0x80) * 64 + (b2 - 0x80)) :: cs)
            | none => none
          else none
      | _ => none
    else if b < 0xF5 then
      match rest with
      | b1 :: b2 :: b3 :: rest3 =>
          if (0x80 ≤ b1 ∧ b1 < 0xC0) ∧ (0x80 ≤ b2 ∧ b2 < 0xC0) ∧
             (0x80 ≤ b3 ∧ b3 < 0xC0) ∧
             (b = 0xF0 → 0x90 ≤ b1) ∧ (b = 0xF4 → b1 < 0x90) then
            match utf8DecodeAux rest3 with
            | some cs =>
                some (Char.ofNat
                  ((b - 0xF0) * 262144 + (b1 - 0x80) * 4096 + (b2 - 0x80) * 64 + (b3 - 0x80)) :: cs)
            | none => none
          else none
      | _ => none
    else none

/-- UTF-8 decoding into a string. -/
def utf8Decode (bs : List Nat) : Option String :=
  (utf8DecodeAux bs).map String.mk

/-- The command union relevant to the radio: the radio.send_bytes command
(RadioSendBytesCommand) and a stand-in for every other MicrobitCommand. -/
inductive Command where
  | radioSendBytes (address channel group power : Int) (message : List Nat)
  | other
  deriving DecidableEq, Repr

/-- Python queue.Queue(maxsize).full(): true iff maxsize is positive and
the current size has reached it. -/
def queueFull (cap : Int) (size : Nat) : Bool :=
  decide (0 < cap ∧ cap ≤ (size : Int))

/-- State of the websocket client radio (microbit_client/radio.py): whether
the peer is open, the configuration fields, and the mailbox queue holding
(message, rssi, timestamp) entries. -/
structure ClientRadio where
  peerOn : Bool
  length : Int
  queueCap : Int
  channel : Int
  power : Int
  address : Int
  group : Int
  mailbox : List (List Nat × Int × Nat)
  deriving DecidableEq, Repr

/-- The inbound listener installed by Radio.on: an incoming command is
enqueued as (message, (MAX_POWER - power) * INVERT_POWER_TO_RSSI, now)
unless it is not a radio.send_bytes command, one of address, channel or
group differs from the radio's own, or the queue is full. -/
def listenerStep (now : Nat) (r : ClientRadio) (c : Command) : ClientRadio :=
  match c with
  | .radioSendBytes a ch g p m =>
      if a ≠ r.address ∨ ch ≠ r.channel ∨ g ≠ r.group ∨
         queueFull r.queueCap r.mailbox.length = true then r
      else
        { r with
          mailbox := r.mailbox ++ [(m, (MAX_POWER - p) * INVERT_POWER_TO_RSSI, now)] }
  | .other => r

/-- A successfully validated client radio configuration. -/
structure ClientConfig where
  length : Int
  queue : Int
  channel : Int
  power : Int
  address : Int
  group : Int
  dataRate : Int
  deriving DecidableEq, Repr

/-- The validation performed by the client Radio.config: each range check
in source order, raising ValueError on the first failure. The address
argument is never checked. -/
def clientConfig (length queue channel power address group data_rate : Int) :
    Except PyError ClientConfig :=
  if length < MIN_LENGTH ∨ MAX_LENGTH < length then .error .valueError
  else if queue < MIN_QUEUE then .error .valueError
  else if channel < MIN_CHANNEL ∨ MAX_CHANNEL < channel then .error .valueError
  else if power < MIN_POWER ∨ MAX_POWER < power then .error .valueError
  else if group < MIN_GROUP ∨ MAX_GROUP < group then .error .valueError
  else if ¬(data_rate = RATE_250KBIT ∨ data_rate = RATE_1MBIT ∨ data_rate = RATE_2MBIT) then
    .error .valueError
  else .ok ⟨length, queue, channel, power, address, group, data_rate⟩

/-- The client Radio.send_bytes on a bytes message: no-op returning None
when the peer is closed (radio off), ValueError when the message is longer
than the configured length, otherwise the emitted radio.send_bytes
command. -/
def clientSendBytes (r : ClientRadio) (message : List Nat) :
    Except PyError (Option Command) :=
  if r.peerOn = false then .ok none
  else if (message.length : Int) > r.length then .error .valueError
  else .ok (some (.radioSendBytes r.address r.channel r.group r.power message))

/-- The client Radio.send: send_bytes of the 3-byte envelope followed by
the UTF-8 encoding of the string. -/
def clientSend (r : ClientRadio) (message : String) : Except PyError (Option Command) :=
  clientSendBytes r (MESSAGE_HEADER ++ utf8Encode message)

/-- The client Radio.receive_bytes: None when off or the mailbox is empty,
otherwise the popped entry's message bytes. -/
def clientReceiveBytes (r : ClientRadio) : ClientRadio × Option (List Nat) :=
  if r.peerOn = false then (r, none)
  else
    match r.mailbox with
    | [] => (r, none)
    | e :: rest => ({ r with mailbox := rest }, some e.1)

/-- The client Radio.receive: pops a message, raises ValueError when it
does not start with the 3-byte envelope, and otherwise decodes the whole
message (envelope included) as UTF-8. -/
def clientReceive (r : ClientRadio) : Except PyError (ClientRadio × Option String) :=
  if r.peerOn = false then .ok (r, none)
  else
    match clientReceiveBytes r with
    | (r2, none) => .ok (r2, none)
    | (r2, some m) =>
        if MESSAGE_HEADER.isPrefixOf m = false then .error .valueError
        else
          match utf8Decode m with
          | some s => .ok (r2, some s)
          | none => .error .valueError

/-- The client Radio.receive_full: None when off or empty, otherwise the
popped (message, rssi, timestamp) triple. -/
def clientReceiveFull (r : ClientRadio) : ClientRadio × Option (List Nat × Int × Nat) :=
  if r.peerOn = false then (r, none)
  else
    match r.mailbox with
    | [] => (r, none)
    | e :: rest => ({ r with mailbox := rest }, some e)

/-- A Python value handed to the legacy mesh radio's send_bytes: either a
bytes object or a str (enough to observe the isinstance check). -/
inductive PyVal where
  | bytes (b : List Nat)
  | str (s : String)
  deriving DecidableEq, Repr

/-- State of the legacy mesh radio (radio/Radio.py). Python name mangling
makes config's assignments self._length and self._queue_size land in
attributes (uLength, uQueueSize here) distinct from the self.__length and
self.__queue_size (length, queueSize here) that send_bytes and the queue
reset actually read. groupNum is the integer group from config before
line 214 overwrites self.__group with the tag string held in group. -/
structure MeshRadio where
  isOn : Bool
  uLength : Option Int
  length : Int
  uQueueSize : Option Int
  queueSize : Int
  channel : Int
  power : Int
  address : Int
  groupNum : Int
  group : String
  dataRate : Int
  dataQueue : List (List Nat)
  connectedClients : List Address
  deriving DecidableEq, Repr

/-- The mesh Radio.config length branch: a given length is validated
against 1..251 and stored in self._length (uLength); an absent length
resets self.__length (length) to 32. -/
def meshCfgLength (st : MeshRadio) : Option Int → Except PyError MeshRadio
  | some l =>
      if l < 1 ∨ 251 < l then .error .valueError
      else .ok { st with uLength := some l }
  | none => .ok { st with length := 32 }

/-- The mesh Radio.config queue branch: a given queue size is validated
and stored in self._queue_size (uQueueSize); an absent one resets
self.__queue_size (queueSize) to 3. -/
def meshCfgQueue (st : MeshRadio) : Option Int → Except PyError MeshRadio
  | some q =>
      if q < 1 then .error .valueError
      else .ok { st with uQueueSize := some q }
  | none => .ok { st with queueSize := 3 }

/-- The mesh Radio.config channel branch. -/
def meshCfgChannel (st : MeshRadio) : Option Int → Except PyError MeshRadio
  | some c =>
      if c < 0 ∨ 83 < c then .error .valueError
      else .ok { st with channel := c }
  | none => .ok { st with channel := 7 }

/-- The mesh Radio.config power branch. -/
def meshCfgPower (st : MeshRadio) : Option Int → Except PyError MeshRadio
  | some p =>
      if p < 0 ∨ 7 < p then .error .valueError
      else .ok { st with power := p }
  | none => .ok { st with power := 6 }

/-- The mesh Radio.config address branch. -/
def meshCfgAddress (st : MeshRadio) : Option Int → Except PyError MeshRadio
  | some a =>
      if a < 0 ∨ 2147483647 < a then .error .valueError
      else .ok { st with address := a }
  | none => .ok { st with address := 0x75626974 }

/-- The mesh Radio.config group branch (the integer group). -/
def meshCfgGroup (st : MeshRadio) : Option Int → Except PyError MeshRadio
  | some g =>
      if g < 0 ∨ 255 < g then .error .valueError
      else .ok { st with groupNum := g }
  | none => .ok { st with groupNum := 0 }

/-- The mesh Radio.config data_rate branch. -/
def meshCfgRate (st : MeshRadio) : Option Int → Except PyError MeshRadio
  | some d =>
      if ¬(d = RATE_250KBIT ∨ d = RATE_1MBIT ∨ d = RATE_2MBIT) then .error .valueError
      else .ok { st with dataRate := d }
  | none => .ok { st with dataRate := RATE_1MBIT }

/-- The mesh Radio.config: the keyword branches in source order, raising
ValueError at the first failing range check. On success the data queue is
replaced by a fresh Queue(self.__queue_size) and self.__group is rebuilt
as the tag string from the channel and integer group. -/
def meshConfig (st : MeshRadio)
    (length? queue? channel? power? address? group? data_rate? : Option Int) :
    Except PyError MeshRadio :=
  match meshCfgLength st length? with
  | .error e => .error e
  | .ok st =>
    match meshCfgQueue st queue? with
    | .error e => .error e
    | .ok st =>
      match meshCfgChannel st channel? with
      | .error e => .error e
      | .ok st =>
        match meshCfgPower st power? with
        | .error e => .error e
        | .ok st =>
          match meshCfgAddress st address? with
          | .error e => .error e
          | .ok st =>
            match meshCfgGroup st group? with
            | .error e => .error e
            | .ok st =>
              match meshCfgRate st data_rate? with
              | .error e => .error e
              | .ok st =>
                  let c := st.channel
                  let g := st.groupNum
                  .ok { st with
                        dataQueue := [],
                        group := "channel" ++ toString c ++ "group" ++ toString g }

/-- The mesh Radio.send_bytes: immediate None when the radio is off
(before the isinstance and length checks), TypeError on a non-bytes
message, ValueError when the length exceeds self.__length, and otherwise
the message goes out to every connected client (returned here as the list
of destination addresses). -/
def meshSendBytes (st : MeshRadio) (message : PyVal) : Except PyError (List Address) :=
  if st.isOn = false then .ok []
  else
    match message with
    | .str _ => .error .typeError
    | .bytes b =>
        if (b.length : Int) > st.length then .error .valueError
        else .ok st.connectedClients

/-- The mesh Radio.__receiveData body for one received frame: when the
radio is on and the data queue is not full, the raw bytes are appended;
otherwise the state is unchanged. -/
def meshReceiveData (st : MeshRadio) (data : List Nat) : MeshRadio :=
  if st.isOn = false then st
  else if queueFull st.queueSize st.dataQueue.length = true then st
  else { st with dataQueue := st.dataQueue ++ [data] }

/-- The mesh Radio.receive_bytes: None when off or empty, otherwise the
popped front of the data queue. -/
def meshReceiveBytes (st : MeshRadio) : MeshRadio × Option (List Nat) :=
  if st.isOn = false then (st, none)
  else
    match st.dataQueue with
    | [] => (st, none)
    | d :: rest => ({ st with dataQueue := rest }, some d)

/-- The mesh Radio.receive_full: None when off, otherwise the triple
(receive_bytes(), self.__power, elapsed microseconds) - the rssi slot
carries the receiving radio's own power attribute. -/
def meshReceiveFull (st : MeshRadio) (elapsed_us : Nat) :
    MeshRadio × Option (Option (List Nat) × Int × Nat) :=
  if st.isOn = false then (st, none)
  else
    ((meshReceiveBytes st).1, some ((meshReceiveBytes st).2, st.power, elapsed_us))

/-- RadioServer.__broadcast: the snapshot difference radios - {sender},
each member of which is sent the command exactly once. Peers are modelled
by identifiers; the connected set is a list without duplicates. -/
def broadcastSends (radios : List Nat) (sender : Nat) : List Nat :=
  radios.filter (fun r => r ≠ sender)

/-- A client radio in the default configuration with the peer open. -/
def clientDefault : ClientRadio :=
  { peerOn := true, length := 32, queueCap := 3, channel := 7, power := 6,
    address := 0x75626974, group := 0, mailbox := [] }

/-- A mesh radio that is on, in the default configuration, with one
connected client. -/
def meshOnDefault : MeshRadio :=
  { isOn := true, uLength := none, length := 32, uQueueSize := none,
    queueSize := 3, channel := 7, power := 6, address := 0x75626974,
    groupNum := 0, group := "channel7group0", dataRate := RATE_1MBIT,
    dataQueue := [], connectedClients := [("192.168.1.7", 8768)] }

/-! Helper lemmas about the addresses linker dict. -/

namespace AddressesLinker

theorem lookup_eq_none_of_not_mem (l : Linker) (a : Address)
    (h : a ∉ l.map Prod.fst) : lookup l a = none := by
  induction l with
  | nil => rfl
  | cons hd tl ih =>
      obtain ⟨k, v⟩ := hd
      simp only [List.map_cons, List.mem_cons] at h
      push_neg at h
      rw [lookup, if_neg (fun hh => h.1 hh.symm)]
      exact ih h.2

theorem lookup_eraseKey_self (l : Linker) (a : Address)
    (hnd : (l.map Prod.fst).Nodup) : lookup (eraseKey l a) a = none := by
  induction l with
  | nil => rfl
  | cons hd tl ih =>
      obtain ⟨k, v⟩ := hd
      simp only [List.map_cons, List.nodup_cons] at hnd
      by_cases hk : k = a
      · subst hk
        rw [eraseKey, if_pos rfl]
        exact lookup_eq_none_of_not_mem tl k hnd.1
      · rw [eraseKey, if_neg hk, lookup, if_neg hk]
        exact ih hnd.2

theorem lookup_eraseKey_ne (l : Linker) (a b : Address) (hab : b ≠ a) :
    lookup (eraseKey l a) b = lookup l b := by
  induction l with
  | nil => rfl
  | cons hd tl ih =>
      obtain ⟨k, v⟩ := hd
      by_cases hk : k = a
      · subst hk
        have hkb : k ≠ b := fun h => hab h.symm
        rw [eraseKey, if_pos rfl, lookup, if_neg hkb]
      · rw [eraseKey, if_neg hk, lookup, lookup]
        by_cases hb : k = b
        · rw [if_pos hb, if_pos hb]
        · rw [if_neg hb, if_neg hb]
          exact ih

theorem lookup_linkAddress_self (l : Linker) (a : Address) (v : String) :
    lookup (linkAddress l a v) a = some v := by
  induction l with
  | nil => simp [linkAddress, lookup]
  | cons hd tl ih =>
      obtain ⟨k, w⟩ := hd
      by_cases hk : k = a
      · rw [linkAddress, if_pos hk, lookup, if_pos hk]
      · rw [linkAddress, if_neg hk, lookup, if_neg hk]
        exact ih

end AddressesLinker

/-- C9 counterexample: unlinkAddress on an address with no entry does not
return normally - dict.pop with no default raises KeyError, refuting
"silent on missing". -/
theorem unlinkAddress_missing_raises :
    AddressesLinker.unlinkAddress ([] : Linker) ("localhost", 8767) =
      .error .keyError := by
  rfl

/-- C9 (amended): unlinkAddress removes the entry for the address when one
is present (leaving every other lookup unchanged), and raises KeyError
when no entry is present. -/
theorem unlinkAddress_amended (l : Linker) (a : Address)
    (hnd : (l.map Prod.fst).Nodup) :
    (AddressesLinker.lookup l a = none →
        AddressesLinker.unlinkAddress l a = .error .keyError) ∧
    (∀ v, AddressesLinker.lookup l a = some v →
        AddressesLinker.unlinkAddress l a = .ok (AddressesLinker.eraseKey l a) ∧
        AddressesLinker.lookup (AddressesLinker.eraseKey l a) a = none ∧
        ∀ b, b ≠ a →
          AddressesLinker.lookup (AddressesLinker.eraseKey l a) b =
            AddressesLinker.lookup l b) := by
  constructor
  · intro hmiss
    simp [AddressesLinker.unlinkAddress, hmiss]
  · intro v hv
    refine ⟨by simp [AddressesLinker.unlinkAddress, hv], ?_, ?_⟩
    · exact AddressesLinker.lookup_eraseKey_self l a hnd
    · intro b hb
      exact AddressesLinker.lookup_eraseKey_ne l a b hb

/-- C9 witness: the amended theorem applied to a one-entry linker. -/
theorem unlinkAddress_amended_witness :
    (AddressesLinker.lookup [((("h" : String), (1 : Nat)), "t")] ("h", 1) = none →
        AddressesLinker.unlinkAddress [((("h" : String), (1 : Nat)), "t")] ("h", 1) =
          .error .keyError) ∧
    (∀ v, AddressesLinker.lookup [((("h" : String), (1 : Nat)), "t")] ("h", 1) = some v →
        AddressesLinker.unlinkAddress [((("h" : String), (1 : Nat)), "t")] ("h", 1) =
          .ok (AddressesLinker.eraseKey [((("h" : String), (1 : Nat)), "t")] ("h", 1)) ∧
        AddressesLinker.lookup
            (AddressesLinker.eraseKey [((("h" : String), (1 : Nat)), "t")] ("h", 1))
            ("h", 1) = none ∧
        ∀ b, b ≠ (("h", 1) : Address) →
          AddressesLinker.lookup
              (AddressesLinker.eraseKey [((("h" : String), (1 : Nat)), "t")] ("h", 1)) b =
            AddressesLinker.lookup [((("h" : String), (1 : Nat)), "t")] b) :=
  unlinkAddress_amended [(("h", 1), "t")] ("h", 1) (by decide)

/-- C4: framing round-trip - recv applied to the byte stream emitted by
send returns exactly the payload, for every payload shorter than 2^32
bytes. -/
theorem conn_recv_send_roundtrip (b : List Nat) (h : b.length < 2 ^ 32) :
    Connection.recv (Connection.send b) = some b := by
  have hn : b.length / 2 ^ 24 % 256 * 2 ^ 24 + b.length / 2 ^ 16 % 256 * 2 ^ 16 +
      b.length / 2 ^ 8 % 256 * 2 ^ 8 + b.length % 256 = b.length := by
    omega
  simp only [Connection.send, be4, List.cons_append, List.nil_append, Connection.recv]
  rw [hn]
  simp

/-- C4 witness: the round-trip at a concrete 3-byte payload. -/
theorem conn_recv_send_roundtrip_witness :
    ([10, 20, 30] : List Nat).length < 2 ^ 32 ∧
      Connection.recv (Connection.send [10, 20, 30]) = some [10, 20, 30] :=
  ⟨by norm_num, conn_recv_send_roundtrip [10, 20, 30] (by norm_num)⟩

/-- C1 counterexample: after link("t1", 5) then link("t2", 6) on one data
connection from host "h", the server's registry holds (("h", 5), "t2") -
the old address with the new tag - and no entry for ("h", 6), refuting
that the new owned entry is built from the port named in the new order. -/
theorem modifyLinker_second_link_cex :
    processOrders "h" ⟨none, []⟩ [.link "t1" 5, .link "t2" 6] =
      ⟨some ("h", 5), [(("h", 5), "t2")]⟩ ∧
    AddressesLinker.lookup
        (processOrders "h" ⟨none, []⟩ [.link "t1" 5, .link "t2" 6]).linker
        ("h", 6) = none := by
  constructor
  · rfl
  · rfl

/-- C1 (amended): when a link(tag, port) order arrives on a data
connection that already owns a registry entry (present in the linker), the
server unlinks that entry and then re-registers the connection's existing
owned address - fixed at its first link order - with the new tag; the port
named in the new order is ignored, so the owned address never changes. -/
theorem modifyLinker_link_owned_amended (host : String) (st : ConnState)
    (owned : Address) (v : String) (p p2 : Nat)
    (hown : st.link = some owned)
    (hpres : AddressesLinker.lookup st.linker owned ≠ none) :
    processOrder host st (.link v p) =
      { link := some owned,
        linker := AddressesLinker.linkAddress
          (AddressesLinker.eraseKey st.linker owned) owned v } ∧
    processOrder host st (.link v p) = processOrder host st (.link v p2) ∧
    AddressesLinker.lookup (processOrder host st (.link v p)).linker owned =
      some v := by
  obtain ⟨w, hw⟩ : ∃ w, AddressesLinker.lookup st.linker owned = some w := by
    cases hl : AddressesLinker.lookup st.linker owned with
    | none => exact absurd hl hpres
    | some w => exact ⟨w, rfl⟩
  have hunlink : AddressesLinker.unlinkAddress st.linker owned =
      .ok (AddressesLinker.eraseKey st.linker owned) := by
    simp [AddressesLinker.unlinkAddress, hw]
  refine ⟨?_, ?_, ?_⟩ <;>
    simp [processOrder, hown, hunlink, AddressesLinker.lookup_linkAddress_self]

/-- C1 witness: the amended theorem at a connection owning ("h", 5) with
tag "t1", receiving link("t2", 6) (and the same order with port 7). -/
theorem modifyLinker_link_owned_amended_witness :
    processOrder "h" ⟨some ("h", 5), [(("h", 5), "t1")]⟩ (.link "t2" 6) =
      { link := some ("h", 5),
        linker := AddressesLinker.linkAddress
          (AddressesLinker.eraseKey [(("h", 5), "t1")] ("h", 5)) ("h", 5) "t2" } ∧
    processOrder "h" ⟨some ("h", 5), [(("h", 5), "t1")]⟩ (.link "t2" 6) =
      processOrder "h" ⟨some ("h", 5), [(("h", 5), "t1")]⟩ (.link "t2" 7) ∧
    AddressesLinker.lookup
        (processOrder "h" ⟨some ("h", 5), [(("h", 5), "t1")]⟩ (.link "t2" 6)).linker
        ("h", 5) = some "t2" :=
  modifyLinker_link_owned_amended "h" ⟨some ("h", 5), [(("h", 5), "t1")]⟩
    ("h", 5) "t2" 6 7 rfl (by decide)

/-- C2: evaluation at the failing input "hi". The matched peer's mailbox
receives the enveloped bytes, but receive() decodes the whole message
without stripping the 3-byte envelope, returning "\x01\x00\x01hi" instead
of "hi": the claim's round trip fails. -/
theorem client_receive_keeps_envelope :
    clientSend clientDefault "hi" =
      .ok (some (.radioSendBytes 0x75626974 7 0 6 [1, 0, 1, 104, 105])) ∧
    (listenerStep 0 clientDefault
        (.radioSendBytes 0x75626974 7 0 6 [1, 0, 1, 104, 105])).mailbox =
      [([1, 0, 1, 104, 105], 8, 0)] ∧
    clientReceive (listenerStep 0 clientDefault
        (.radioSendBytes 0x75626974 7 0 6 [1, 0, 1, 104, 105])) =
      .ok (clientDefault,
           some (String.mk [Char.ofNat 1, Char.ofNat 0, Char.ofNat 1, 'h', 'i'])) ∧
    String.mk [Char.ofNat 1, Char.ofNat 0, Char.ofNat 1, 'h', 'i'] ≠ "hi" := by
  refine ⟨rfl, rfl, rfl, ?_⟩
  decide

/-- C3: a command whose message enters the mailbox (an entry new to the
mailbox) is necessarily a radio.send_bytes command whose address, channel
and group all equal the radio's own, and the entry is its message with the
synthesised rssi and timestamp. -/
theorem listener_admits_only_matching (now : Nat) (r : ClientRadio)
    (c : Command) (entry : List Nat × Int × Nat)
    (hmem : entry ∈ (listenerStep now r c).mailbox)
    (hnew : entry ∉ r.mailbox) :
    ∃ p m, c = .radioSendBytes r.address r.channel r.group p m ∧
      entry = (m, (MAX_POWER - p) * INVERT_POWER_TO_RSSI, now) := by
  cases c with
  | other => exact absurd hmem hnew
  | radioSendBytes a ch g p m =>
      by_cases hcond : a ≠ r.address ∨ ch ≠ r.channel ∨ g ≠ r.group ∨
          queueFull r.queueCap r.mailbox.length = true
      · rw [listenerStep, if_pos hcond] at hmem
        exact absurd hmem hnew
      · push_neg at hcond
        obtain ⟨ha, hch, hg, hq⟩ := hcond
        rw [listenerStep, if_neg] at hmem
        · rw [List.mem_append] at hmem
          rcases hmem with hold | hnewe
          · exact absurd hold hnew
          · rw [List.mem_singleton] at hnewe
            exact ⟨p, m, by rw [ha, hch, hg], hnewe⟩
        · push_neg
          exact ⟨ha, hch, hg, hq⟩

/-- C3 witness: the only-if theorem at a matching command arriving at the
default radio with an empty mailbox. -/
theorem listener_admits_only_matching_witness :
    ∃ p m, (Command.radioSendBytes 0x75626974 7 0 6 [42] : Command) =
        .radioSendBytes clientDefault.address clientDefault.channel
          clientDefault.group p m ∧
      (([42], 8, 0) : List Nat × Int × Nat) =
        (m, (MAX_POWER - p) * INVERT_POWER_TO_RSSI, 0) :=
  listener_admits_only_matching 0 clientDefault
    (.radioSendBytes 0x75626974 7 0 6 [42]) ([42], 8, 0) (by decide) (by decide)

/-- C5: evaluation at the failing input. config(length=4) is accepted but
stores the value in the stray self._length attribute (uLength), leaving
self.__length (length) at 32, so send_bytes of the 5-byte message
b"12345" raises nothing and the message goes out to the connected peer -
the claim's LengthExceeded never happens. -/
theorem mesh_config_length_unused :
    meshConfig meshOnDefault (some 4) none none none none none none =
      .ok { meshOnDefault with uLength := some 4 } ∧
    ({ meshOnDefault with uLength := some 4 } : MeshRadio).length = 32 ∧
    meshSendBytes { meshOnDefault with uLength := some 4 }
        (.bytes [49, 50, 51, 52, 53]) = .ok [("192.168.1.7", 8768)] := by
  refine ⟨?_, rfl, rfl⟩
  rfl

/-- C6 counterexample: the client config accepts length=0 and queue=0
(which the claim says are rejected), and the mesh config rejects
length=252 (which the claim says is accepted). -/
theorem config_ranges_cex :
    clientConfig 0 3 7 6 0x75626974 0 1000 =
      .ok ⟨0, 3, 7, 6, 0x75626974, 0, 1000⟩ ∧
    clientConfig 32 0 7 6 0x75626974 0 1000 =
      .ok ⟨32, 0, 7, 6, 0x75626974, 0, 1000⟩ ∧
    meshConfig meshOnDefault (some 252) none none none none none none =
      .error .valueError := by
  refine ⟨rfl, rfl, rfl⟩

set_option maxHeartbeats 1000000 in
/-- C6 (amended): config raises ValueError exactly when an argument lies
outside the range the code actually enforces - in the websocket client:
length in [0,254], queue >= 0, channel in [0,83], power in [0,7], group in
[0,255], data_rate in {250,1000,2000}, address never validated; in the
mesh radio (all arguments given): length in [1,251], queue >= 1, channel
in [0,83], power in [0,7], address in [0, 2^31-1], group in [0,255],
data_rate in {250,1000,2000}. -/
theorem config_validation_amended :
    (∀ l q c p a g d : Int,
        (∃ e, clientConfig l q c p a g d = .error e) ↔
          (l < 0 ∨ 254 < l ∨ q < 0 ∨ c < 0 ∨ 83 < c ∨ p < 0 ∨ 7 < p ∨
           g < 0 ∨ 255 < g ∨ ¬(d = 250 ∨ d = 1000 ∨ d = 2000))) ∧
    (∀ (st : MeshRadio) (l q c p a g d : Int),
        (∃ e, meshConfig st (some l) (some q) (some c) (some p) (some a)
            (some g) (some d) = .error e) ↔
          (l < 1 ∨ 251 < l ∨ q < 1 ∨ c < 0 ∨ 83 < c ∨ p < 0 ∨ 7 < p ∨
           a < 0 ∨ 2147483647 < a ∨ g < 0 ∨ 255 < g ∨
           ¬(d = 250 ∨ d = 1000 ∨ d = 2000))) := by
  constructor
  · intro l q c p a g d
    by_cases h1 : l < 0 ∨ 254 < l
    · simp only [clientConfig, MIN_LENGTH, MAX_LENGTH]
      rw [if_pos h1]
      simp only [Except.error.injEq, exists_eq']
      tauto
    by_cases h2 : q < 0
    · simp only [clientConfig, MIN_LENGTH, MAX_LENGTH, MIN_QUEUE]
      rw [if_neg h1, if_pos h2]
      simp only [Except.error.injEq, exists_eq']
      tauto
    by_cases h3 : c < 0 ∨ 83 < c
    · simp only [clientConfig, MIN_LENGTH, MAX_LENGTH, MIN_QUEUE, MIN_CHANNEL,
        MAX_CHANNEL]
      rw [if_neg h1, if_neg h2, if_pos h3]
      simp only [Except.error.injEq, exists_eq']
      tauto
    by_cases h4 : p < 0 ∨ 7 < p
    · simp only [clientConfig, MIN_LENGTH, MAX_LENGTH, MIN_QUEUE, MIN_CHANNEL,
        MAX_CHANNEL, MIN_POWER, MAX_POWER]
      rw [if_neg h1, if_neg h2, if_neg h3, if_pos h4]
      simp only [Except.error.injEq, exists_eq']
      tauto
    by_cases h5 : g < 0 ∨ 255 < g
    · simp only [clientConfig, MIN_LENGTH, MAX_LENGTH, MIN_QUEUE, MIN_CHANNEL,
        MAX_CHANNEL, MIN_POWER, MAX_POWER, MIN_GROUP, MAX_GROUP]
      rw [if_neg h1, if_neg h2, if_neg h3, if_neg h4, if_pos h5]
      simp only [Except.error.injEq, exists_eq']
      tauto
    by_cases h6 : d = 250 ∨ d = 1000 ∨ d = 2000
    · simp only [clientConfig, MIN_LENGTH, MAX_LENGTH, MIN_QUEUE, MIN_CHANNEL,
        MAX_CHANNEL, MIN_POWER, MAX_POWER, MIN_GROUP, MAX_GROUP,
        RATE_250KBIT, RATE_1MBIT, RATE_2MBIT]
      rw [if_neg h1, if_neg h2, if_neg h3, if_neg h4, if_neg h5,
        if_neg (by tauto)]
      simp only [reduceCtorEq, exists_false, false_iff]
      tauto
    · simp only [clientConfig, MIN_LENGTH, MAX_LENGTH, MIN_QUEUE, MIN_CHANNEL,
        MAX_CHANNEL, MIN_POWER, MAX_POWER, MIN_GROUP, MAX_GROUP,
        RATE_250KBIT, RATE_1MBIT, RATE_2MBIT]
      rw [if_neg h1, if_neg h2, if_neg h3, if_neg h4, if_neg h5,
        if_pos (by tauto)]
      simp only [Except.error.injEq, exists_eq']
      tauto
  · intro st l q c p a g d
    by_cases h1 : l < 1 ∨ 251 < l
    · have e1 : ∀ s : MeshRadio, meshCfgLength s (some l) = .error .valueError :=
        fun s => by simp [meshCfgLength, h1]
      simp only [meshConfig, e1, Except.error.injEq, exists_eq']
      tauto
    have e1 : ∀ s : MeshRadio, meshCfgLength s (some l) = .ok { s with uLength := some l } :=
      fun s => by simp [meshCfgLength, h1]
    by_cases h2 : q < 1
    · have e2 : ∀ s : MeshRadio, meshCfgQueue s (some q) = .error .valueError :=
        fun s => by simp [meshCfgQueue, h2]
      simp only [meshConfig, e1, e2, Except.error.injEq, exists_eq']
      tauto
    have e2 : ∀ s : MeshRadio, meshCfgQueue s (some q) = .ok { s with uQueueSize := some q } :=
      fun s => by simp [meshCfgQueue, h2]
    by_cases h3 : c < 0 ∨ 83 < c
    · have e3 : ∀ s : MeshRadio, meshCfgChannel s (some c) = .error .valueError :=
        fun s => by simp [meshCfgChannel, h3]
      simp only [meshConfig, e1, e2, e3, Except.error.injEq, exists_eq']
      tauto
    have e3 : ∀ s : MeshRadio, meshCfgChannel s (some c) = .ok { s with channel := c } :=
      fun s => by simp [meshCfgChannel, h3]
    by_cases h4 : p < 0 ∨ 7 < p
    · have e4 : ∀ s : MeshRadio, meshCfgPower s (some p) = .error .valueError :=
        fun s => by simp [meshCfgPower, h4]
      simp only [meshConfig, e1, e2, e3, e4, Except.error.injEq, exists_eq']
      tauto
    have e4 : ∀ s : MeshRadio, meshCfgPower s (some p) = .ok { s with power := p } :=
      fun s => by simp [meshCfgPower, h4]
    by_cases h5 : a < 0 ∨ 2147483647 < a
    · have e5 : ∀ s : MeshRadio, meshCfgAddress s (some a) = .error .valueError :=
        fun s => by simp [meshCfgAddress, h5]
      simp only [meshConfig, e1, e2, e3, e4, e5, Except.error.injEq, exists_eq']
      tauto
    have e5 : ∀ s : MeshRadio, meshCfgAddress s (some a) = .ok { s with address := a } :=
      fun s => by simp [meshCfgAddress, h5]
    by_cases h6 : g < 0 ∨ 255 < g
    · have e6 : ∀ s : MeshRadio, meshCfgGroup s (some g) = .error .valueError :=
        fun s => by simp [meshCfgGroup, h6]
      simp only [meshConfig, e1, e2, e3, e4, e5, e6, Except.error.injEq, exists_eq']
      tauto
    have e6 : ∀ s : MeshRadio, meshCfgGroup s (some g) = .ok { s with groupNum := g } :=
      fun s => by simp [meshCfgGroup, h6]
    by_cases h7 : d = 250 ∨ d = 1000 ∨ d = 2000
    · have e7 : ∀ s : MeshRadio, meshCfgRate s (some d) = .ok { s with dataRate := d } :=
        fun s => by
          simp only [meshCfgRate, RATE_250KBIT, RATE_1MBIT, RATE_2MBIT]
          rw [if_neg (by tauto)]
      simp only [meshConfig, e1, e2, e3, e4, e5, e6, e7, reduceCtorEq,
        exists_false, false_iff]
      tauto
    · have e7 : ∀ s : MeshRadio, meshCfgRate s (some d) = .error .valueError :=
        fun s => by
          simp only [meshCfgRate, RATE_250KBIT, RATE_1MBIT, RATE_2MBIT]
          rw [if_pos (by tauto)]
      simp only [meshConfig, e1, e2, e3, e4, e5, e6, e7, Except.error.injEq,
        exists_eq']
      tauto

/-- C7 counterexample: a mesh sender in the default configuration has
power 6, so the claim predicts rssi (7 - 6) * 8 = 8 for its delivered
message; the mesh receive_full instead reports the receiving radio's own
power attribute, 6. -/
theorem rssi_mesh_reports_receiver_power :
    meshSendBytes meshOnDefault (.bytes [104, 105]) =
      .ok [("192.168.1.7", 8768)] ∧
    meshReceiveFull (meshReceiveData meshOnDefault [104, 105]) 0 =
      (meshOnDefault, some (some [104, 105], 6, 0)) ∧
    ((MAX_POWER - meshOnDefault.power) * INVERT_POWER_TO_RSSI : Int) = 8 ∧
    (6 : Int) ≠ 8 := by
  refine ⟨rfl, rfl, rfl, by decide⟩

/-- C7 (amended): the websocket client stores
(MAX_POWER - power) * INVERT_POWER_TO_RSSI as the rssi of each admitted
message, power being the sender's power carried in the command; the mesh
receive_full instead reports the receiving radio's own power setting. -/
theorem rssi_synthesis_amended (now : Nat) (r : ClientRadio) (p : Int)
    (m : List Nat) (hq : queueFull r.queueCap r.mailbox.length = false)
    (st : MeshRadio) (e : Nat) (hon : st.isOn = true) :
    (listenerStep now r (.radioSendBytes r.address r.channel r.group p m)).mailbox =
      r.mailbox ++ [(m, (MAX_POWER - p) * INVERT_POWER_TO_RSSI, now)] ∧
    (meshReceiveFull st e).2 = some ((meshReceiveBytes st).2, st.power, e) := by
  constructor
  · simp [listenerStep, hq]
  · simp [meshReceiveFull, hon]

/-- C7 witness: the amended theorem at the default client radio with a
sender power of 6 and at the default mesh radio. -/
theorem rssi_synthesis_amended_witness :
    (listenerStep 0 clientDefault (.radioSendBytes clientDefault.address
        clientDefault.channel clientDefault.group 6 [42])).mailbox =
      clientDefault.mailbox ++ [([42], (MAX_POWER - 6) * INVERT_POWER_TO_RSSI, 0)] ∧
    (meshReceiveFull meshOnDefault 0).2 =
      some ((meshReceiveBytes meshOnDefault).2, meshOnDefault.power, 0) :=
  rssi_synthesis_amended 0 clientDefault 6 [42] (by decide) meshOnDefault 0 rfl

/-- C8: the broker's broadcast of a command received from a sender reaches
every other member of the connected set exactly once and is never sent
back to the sender. -/
theorem broker_broadcast_exactly_once (radios : List Nat) (sender : Nat)
    (hnd : radios.Nodup) :
    (broadcastSends radios sender).count sender = 0 ∧
    ∀ p, p ∈ radios → p ≠ sender → (broadcastSends radios sender).count p = 1 := by
  constructor
  · rw [List.count_eq_zero]
    simp [broadcastSends]
  · intro p hp hne
    have hmem : p ∈ broadcastSends radios sender := by
      simp [broadcastSends, hp, hne]
    exact List.count_eq_one_of_mem (hnd.filter _) hmem

/-- C8 witness: three connected peers, sender 1. -/
theorem broker_broadcast_exactly_once_witness :
    (broadcastSends [1, 2, 3] 1).count 1 = 0 ∧
    ∀ p, p ∈ [1, 2, 3] → p ≠ 1 → (broadcastSends [1, 2, 3] 1).count p = 1 :=
  broker_broadcast_exactly_once [1, 2, 3] 1 (by decide)

/-- C10: while a radio is off, send_bytes returns None and raises nothing,
for every client bytes message and every mesh value (bytes of any length
or even a str) - the length and type checks are never reached. -/
theorem send_bytes_off_inert (r : ClientRadio) (m : List Nat)
    (st : MeshRadio) (v : PyVal)
    (hr : r.peerOn = false) (hs : st.isOn = false) :
    clientSendBytes r m = .ok none ∧ meshSendBytes st v = .ok [] := by
  constructor
  · simp [clientSendBytes, hr]
  · simp [meshSendBytes, hs]

/-- C10 witness: an off client radio given a 33-byte message (longer than
the configured 32) and an off mesh radio given a str value. -/
theorem send_bytes_off_inert_witness :
    clientSendBytes { clientDefault with peerOn := false }
        (List.replicate 33 0) = .ok none ∧
    meshSendBytes { meshOnDefault with isOn := false } (.str "x") = .ok [] :=
  send_bytes_off_inert { clientDefault with peerOn := false }
    (List.replicate 33 0) { meshOnDefault with isOn := false } (.str "x") rfl rfl
